import Mathlib

/-!
Verification development for the mundos-be dental-clinic re-engagement backend.

The definitions below are a shallow embedding of the Python source:
  * string helpers mirroring Python's `str.lower`, `str.strip` and the
    `needle in haystack` substring test,
  * the inbound reply agent's no-LLM fallback classifiers
    (src/email_reply_agent/reply_handler/nodes.py),
  * the public availability slot grid (src/api/v1/endpoints/public.py),
  * the admin appointment deletion endpoint (src/api/v1/endpoints/admin.py),
  * the outbound campaign agent graph and nodes (src/agent/graph.py,
    src/agent/nodes.py), with the external LLM / clock / date formatting
    passed in as oracle parameters,
  * the Gmail Pub/Sub push processor and its processed-message ledger
    (src/services/gmail/processor.py,
    src/email_reply_agent/reply_handler/repository.py),
  * the inbound reply workflow over an explicit database state
    (src/email_reply_agent/reply_handler/graph.py, nodes.py, repository.py).

Timestamps are modelled as integers (seconds); documents are Lean structures;
the document store is explicit state threaded through each node.
-/

namespace Mundos

/-! ## Python string primitives -/

/-- Python `str.lower()` restricted to the ASCII range used by the code. -/
def pyLower (s : String) : String := String.mk (s.toList.map Char.toLower)

/-- Characters Python's `str.strip()` removes. -/
def isPySpace (c : Char) : Bool :=
  c = ' ' || c = '\t' || c = '\n' || c = '\r' || c = '\x0b' || c = '\x0c'

/-- Python `str.strip()`. -/
def pyStrip (s : String) : String :=
  String.mk (((s.toList.dropWhile isPySpace).reverse.dropWhile isPySpace).reverse)

/-- Worker for the Python substring test: does `n` occur inside the second list. -/
def pyContainsGo (n : List Char) : List Char → Bool
  | [] => n.isEmpty
  | c :: rest => n.isPrefixOf (c :: rest) || pyContainsGo n rest

/-- Python's `needle in hay` substring containment test. -/
def pyContains (hay needle : String) : Bool := pyContainsGo needle.toList hay.toList

/-- Python `s.startswith(p)`. -/
def pyStartsWith (s p : String) : Bool := p.toList.isPrefixOf s.toList

/-! ## Inbound reply agent: no-LLM fallback classifiers
(src/email_reply_agent/reply_handler/nodes.py, `analyze_incoming` lines 83-97
and `query_knowledge_base` lines 328-347; src/email_reply_agent/reply_handler/graph.py,
`answer_checker` lines 77-81.) -/

def ALLOWED_INTENTS : List String :=
  ["booking_request", "service_denial", "irrelevant_confused", "question"]

/-- Keyword-heuristic intent/sentiment classification used by `analyze_incoming`
when no LLM API key is configured.  Returns (intent, sentiment). -/
def analyze_incoming_fallback (reply_body : String) : String × String :=
  let lower := pyLower reply_body
  let intent :=
    if ["book", "schedule", "appointment", "time slot"].any (fun k => pyContains lower k) then
      "booking_request"
    else if ["no", "not interested", "stop", "unsubscribe"].any (fun k => pyContains lower k) then
      "service_denial"
    else if ["what", "how", "when", "?"].any (fun k => pyContains lower k) then
      "question"
    else
      "irrelevant_confused"
  (intent, "neutral")

/-- The fixed snippet returned by the knowledge-base fallback for implant questions. -/
def implantSnippet : String :=
  "Dental implants are a permanent solution for missing teeth; they look, feel, and function like natural teeth."

/-- `query_knowledge_base` when no LLM API key is configured: strip the question,
answer the implant keyword family from a canned snippet, otherwise `NO_ANSWER`. -/
def query_knowledge_base_fallback (reply_email_body : String) : String :=
  let question := pyStrip reply_email_body
  if question = "" then "NO_ANSWER"
  else
    let lowered := pyLower question
    if ["implant", "implante"].any (fun k => pyContains lowered k) then implantSnippet
    else "NO_ANSWER"

/-- The question-branch router of the reply graph: route to the answer node only
when the stripped `kb_answer` is non-empty and not the `NO_ANSWER` sentinel. -/
def answer_checker (kb_answer : Option String) : String :=
  let answer := pyStrip (kb_answer.getD "")
  if answer ≠ "" ∧ answer ≠ "NO_ANSWER" then "generate_answer_email"
  else "update_campaign_for_handoff"

/-! ## Public availability (src/api/v1/endpoints/public.py lines 45-110) -/

/-- Two-digit zero-padded rendering, as Python's format spec `02d` produces. -/
def fmt2 (n : Nat) : String := if n < 10 then "0" ++ toString n else toString n

/-- One half-hour slot label. -/
def slotLabel (hour minute : Nat) : String := fmt2 hour ++ ":" ++ fmt2 minute

/-- `_generate_base_slots`: `for hour in range(9, 21): for minute in (0, 30)`. -/
def generateBaseSlots : List String :=
  (List.range' 9 12).flatMap (fun hour => [slotLabel hour 0, slotLabel hour 30])

/-- Split a string at every colon, mirroring Python `label.split(":")`. -/
def splitOnColonGo : List Char → List Char → List String
  | acc, [] => [String.mk acc.reverse]
  | acc, c :: rest =>
    if c = ':' then String.mk acc.reverse :: splitOnColonGo [] rest
    else splitOnColonGo (c :: acc) rest

def splitOnColon (s : String) : List String := splitOnColonGo [] s.toList

/-- Decimal digit parse mirroring `int()` on the slot label pieces. -/
def pyDigits : List Char → Option Nat
  | [] => none
  | cs => cs.foldl (fun acc c => acc.bind (fun a => if c.isDigit then some (a * 10 + (c.toNat - 48)) else none)) (some 0)

/-- Parse an `"HH:MM"` label to minutes past midnight; `none` when the label is
malformed, in which case `_remove_occupied` keeps the label (exception → continue). -/
def labelToMinutes (label : String) : Option Nat :=
  match splitOnColon label with
  | [hh, mm] =>
    match pyDigits hh.toList, pyDigits mm.toList with
    | some h, some m => some (h * 60 + m)
    | _, _ => none
  | _ => none

/-- Effective appointment duration: absent or unparsable (`none`) and
non-positive raw values all fall back to 45 minutes. -/
def effectiveDuration (durationRaw : Option Int) : Int :=
  match durationRaw with
  | none => 45
  | some d => if d ≤ 0 then 45 else d

/-- Does the appointment starting at `startMin` (minutes past local midnight)
with raw duration `durationRaw` remove the slot `label`?  Start-inclusive,
end-exclusive, exactly as `_remove_occupied` tests `start_local <= slot_dt < end_local`. -/
def slotRemoved (startMin : Int) (durationRaw : Option Int) (label : String) : Bool :=
  let endMin := startMin + effectiveDuration durationRaw
  match labelToMinutes label with
  | none => false
  | some slot => decide (startMin ≤ (slot : Int)) && decide ((slot : Int) < endMin)

/-- `_remove_occupied`: drop from `available` every label covered by the appointment. -/
def removeOccupied (available : List String) (startMin : Int) (durationRaw : Option Int) :
    List String :=
  available.filter (fun label => ! slotRemoved startMin durationRaw label)

/-- An appointment already stored for the requested date, reduced to its local
start time in minutes past midnight and its raw `duration_minutes` field. -/
structure ApptSlot where
  startMin : Int
  durationRaw : Option Int
deriving DecidableEq, Repr

/-- `get_availability` for one requested date: start from the base grid and
remove the slots occupied by each stored appointment of that date.  The Python
code keeps the labels in a set and returns `sorted(available)`; since the base
grid is generated in ascending label order and filtering preserves order, the
filtered list below is that sorted list. -/
def get_availability_day (appts : List ApptSlot) : List String :=
  appts.foldl (fun available a => removeOccupied available a.startMin a.durationRaw)
    generateBaseSlots

/-! ## Admin appointment deletion (src/api/v1/endpoints/admin.py lines 701-713) -/

def isHexChar (c : Char) : Bool :=
  c.isDigit || ('a' ≤ c && c ≤ 'f') || ('A' ≤ c && c ≤ 'F')

/-- A string accepted by bson's `ObjectId(...)` constructor: exactly 24 hex digits. -/
def isValidObjectIdStr (s : String) : Bool :=
  s.length = 24 && s.toList.all isHexChar

/-- The `_id` filter value the endpoint builds: an ObjectId when the path
parameter parses, otherwise the raw string verbatim. -/
inductive IdFilter where
  | oid (hex : String)
  | raw (s : String)
deriving DecidableEq, Repr

/-- A stored appointment document, reduced to its `_id`. -/
structure StoredAppt where
  _id : IdFilter
deriving DecidableEq, Repr

/-- `repo.delete_one`: remove the first document matching the filter, if any. -/
def deleteOneAppt : List StoredAppt → IdFilter → List StoredAppt
  | [], _ => []
  | d :: rest, q => if d._id = q then rest else d :: deleteOneAppt rest q

/-- The filter built by `delete_appointment`: `ObjectId(appointment_id)` when it
parses, else the raw string. -/
def appointmentIdFilter (appointment_id : String) : IdFilter :=
  if isValidObjectIdStr appointment_id then IdFilter.oid appointment_id
  else IdFilter.raw appointment_id

/-- `DELETE /admin/appointments/{appointment_id}`: build the tolerant filter,
delete at most one document, and always answer with the fixed success message. -/
def delete_appointment (appts : List StoredAppt) (appointment_id : String) :
    String × List StoredAppt :=
  ("Appointment deleted.", deleteOneAppt appts (appointmentIdFilter appointment_id))

/-! ## Outbound campaign agent (src/agent/nodes.py, src/agent/graph.py)

One invocation = one campaign progressed.  The document store is the single
campaign being processed plus its interactions and the appointments collection.
The LLM, the clock and the timezone/date formatting are external services and
enter as parameters. -/

/-- `follow_up_details` subdocument, with the `.get(..., 0)` read defaults applied. -/
structure FollowUpDetails where
  attempts_made : Int := 0
  max_attempts : Int := 0
  next_attempt_at : Option Int := none
deriving DecidableEq, Repr

/-- `channel` subdocument. -/
structure Channel where
  chType : Option String := none
  thread_id : Option String := none
deriving DecidableEq, Repr

/-- `booking_funnel` subdocument. -/
structure BookingFunnel where
  bfStatus : Option String := none
deriving DecidableEq, Repr

/-- A campaign document as the outbound agent reads it. -/
structure OutCampaign where
  _id : Option String := none
  campaign_type : String := "RECOVERY"
  cStatus : String := ""
  service_name : Option String := none
  channel : Option Channel := none
  booking_funnel : Option BookingFunnel := none
  engagement_summary : Option String := none
  follow_up_details : FollowUpDetails := {}
deriving DecidableEq, Repr

/-- A patient document as the outbound agent reads it. -/
structure OutPatient where
  pname : String
  email : String
  phone : Option String := none
deriving DecidableEq, Repr

/-- An appointment document as the reminder branch reads it. -/
structure OutAppointment where
  campaign_id : Option String := none
  appointment_date : Option Int := none
  consulting_doctor : Option String := none
deriving DecidableEq, Repr

/-- An interaction document as the outbound agent appends it. -/
structure OutInteraction where
  campaign_id : Option String
  direction : String
  content : String
  timestamp : Int
deriving DecidableEq, Repr

/-- The slice of the document store the outbound agent touches. -/
structure OutDb where
  campaign : OutCampaign
  appointments : List OutAppointment := []
  interactions : List OutInteraction := []
deriving DecidableEq, Repr

/-- The workflow state dict threaded through the outbound graph. -/
structure OutState where
  campaign : OutCampaign
  patient : OutPatient
  skip : Bool := false
  email_body : Option String := none
  subject : Option String := none
  call_result : Option String := none
  engagement_summary_out : Option String := none
deriving DecidableEq, Repr

/-- Side effects on the outside world: emails handed to the SMTP service
(to, subject, body) and voice calls triggered (patient phone). -/
structure OutEffects where
  emails : List (String × String × String) := []
  calls : List String := []
deriving DecidableEq, Repr

/-- One line of conversation history handed to the summarization call. -/
structure ChatItem where
  timestamp_iso : Int
  direction : String
  content : String
deriving DecidableEq, Repr

/-- The hosted LLM, as an oracle: arguments mirror the Python call sites. -/
structure LlmOracle where
  generateCampaignMessage :
    String → String → Int → Option String → Option String → String
  summarizeFormatted : List ChatItem → String

/-- Environment-derived clinic settings plus the timezone/strftime rendering of a
UTC timestamp to (day-of-week, long date, time) used by the reminder template. -/
structure AgentEnv where
  clinicName : String := "Bright Smile Clinic"
  consultingDoctorDefault : String := "Dr. John Doe"
  formatLocal : Int → String × String × String

/-- Python renders `None` inside an f-string as the text `"None"`. -/
def pyFString : Option String → String
  | some s => s
  | none => "None"

/-- Insertion into a timestamp-sorted list. -/
def insertByTs (i : OutInteraction) : List OutInteraction → List OutInteraction
  | [] => [i]
  | j :: rest => if i.timestamp ≤ j.timestamp then i :: j :: rest else j :: insertByTs i rest

/-- `find(...).sort("timestamp", 1)`. -/
def sortByTs (l : List OutInteraction) : List OutInteraction := l.foldr insertByTs []

/-- The interactions of the campaign, ordered by timestamp ascending, rendered
as the chat items `node_ai_summary` hands to the summarization call. -/
def outboundChatItems (db : OutDb) : List ChatItem :=
  (sortByTs (db.interactions.filter (fun i => i.campaign_id = db.campaign._id))).map
    (fun i => { timestamp_iso := i.timestamp, direction := i.direction, content := i.content })

/-- The three hand-authored RECOVERY/RECALL follow-up templates, selected by
`attempts_made` (0, 1, else). -/
def followUpTemplate (clinic_name patient_name : String) (attempts_made : Int) : String :=
  if attempts_made = 0 then
    "Hi " ++ patient_name ++ ",\n\nJust a friendly follow-up from our team at " ++ clinic_name ++
    ".\n\nOur records show you reached out to us. I wanted to check in and see if this is still on your mind " ++
    "or if you had any questions we could help answer.\n\nNo pressure at all, just wanted to make sure we didn\x27t leave you hanging!\n\nBest,\n\nThe " ++
    clinic_name ++ " Team\nContact us at +55 (11) 4567-8910"
  else if attempts_made = 1 then
    "Hi " ++ patient_name ++ ",\n\nHope you\x27re having a great week.\n\n" ++
    "I\x27m sending a quick, gentle follow-up to my last email. We know that life can get busy, and finding time for appointments can be tricky.\n\n" ++
    "I wanted to let you know that we offer flexible scheduling, including early morning and evening slots, " ++
    "to make it easier to find a time that works for you.\n\nIf you have even a small question, feel free to just reply to this email. We\x27re happy to help.\n\nSincerely,\n\nThe " ++
    clinic_name ++ " Team\nContact us at +55 (11) 4567-8910"
  else
    "Hi " ++ patient_name ++ ",\n\nSince I haven\x27t heard back, I\x27ll assume that now might not be the right time for you, " ++
    "and that\x27s completely okay. I won\x27t reach out about this again to respect your inbox.\n\n" ++
    "Please know our door is always open if you decide to move forward in the future.\n\nWishing you all the best.\n\nBest regards,\n\nThe " ++
    clinic_name ++ " Team\nContact us at +55 (11) 4567-8910"

/-- The fully templated appointment-reminder body. -/
def reminderBody (clinic_name patient_name doctor_name day_of_week date_str time_str : String) :
    String :=
  "Dear " ++ patient_name ++ ",\n\nThis is a friendly reminder about your scheduled appointment at " ++
  clinic_name ++ ".\n\nWe have you scheduled for:\n" ++ day_of_week ++ ", " ++ date_str ++ " at " ++
  time_str ++ "\n\nYour appointment will be with Dr. " ++ doctor_name ++
  " at our clinic.\n\nWe look forward to seeing you.\n\nSincerely,\nThe Team at " ++ clinic_name ++
  "\nContact us at +55 (11) 4567-8910"

/-- `node_follow_up`: drafts the outbound content or marks the turn skipped. -/
def node_follow_up (env : AgentEnv) (llm : LlmOracle) (db : OutDb) (st : OutState) : OutState :=
  let campaign := st.campaign
  let patient := st.patient
  let follow := campaign.follow_up_details
  let attempts_made := follow.attempts_made
  let max_attempts := follow.max_attempts
  let next_attempt_at := follow.next_attempt_at
  let status_value := campaign.cStatus
  let booking_status_value := (campaign.booking_funnel.getD {}).bfStatus
  let campaign_type_value := campaign.campaign_type
  let service_name_value := campaign.service_name
  let clinic_name := env.clinicName
  let patient_name := if patient.pname = "" then "Patient" else patient.pname
  if attempts_made ≥ max_attempts then { st with skip := true }
  else if campaign_type_value = "APPOINTMENT_REMINDER" then
    -- Prefer the linked appointment's date and doctor; a lookup exception
    -- (here: no campaign `_id` to convert) falls back to `next_attempt_at`;
    -- a missing appointment or missing datetime leaves the strings empty.
    let appt : Option OutAppointment :=
      campaign._id.bind (fun cid => db.appointments.find? (fun a => a.campaign_id = some cid))
    let local_dt_obj : Option Int :=
      match campaign._id with
      | none => next_attempt_at
      | some _ => appt.bind (fun a => a.appointment_date)
    let doctor_name_value : Option String := appt.bind (fun a => a.consulting_doctor)
    let doctor_name := doctor_name_value.getD env.consultingDoctorDefault
    let parts : String × String × String :=
      match local_dt_obj with
      | some t => env.formatLocal t
      | none => ("", "", "")
    let body := reminderBody clinic_name patient_name doctor_name parts.1 parts.2.1 parts.2.2
    { st with email_body := some body, subject := some "Appointment reminder" }
  else
    if status_value = "RECOVERED" ∨ status_value = "RECOVERY_FAILED" then { st with skip := true }
    else if booking_status_value = some "FORM_SUBMITTED" then { st with skip := true }
    else
      let ai_summary_text := campaign.engagement_summary
      if status_value = "RE_ENGAGED" ∨ status_value = "BOOKING_INITIATED" then
        let body := llm.generateCampaignMessage patient.pname campaign_type_value attempts_made
          service_name_value ai_summary_text
        { st with
            email_body := some body,
            subject := some ("Following up about " ++ pyFString service_name_value) }
      else if status_value = "HANDOFF_REQUIRED" then { st with skip := true }
      else
        let body := followUpTemplate clinic_name patient_name attempts_made
        { st with
            email_body := some body,
            subject := some ("Following up about " ++ pyFString service_name_value) }

/-- The conditional router installed after `follow_up` in `build_graph`. -/
def route_action (campaign : OutCampaign) : String :=
  let channel_type := pyLower (((campaign.channel.getD {}).chType).getD "")
  if campaign.campaign_type = "RECOVERY" ∧ campaign.cStatus = "ATTEMPTING_RECOVERY" ∧
      channel_type = "sms" then "call_patient"
  else "send_email"

/-- `node_send_email`: no-op when skipped; otherwise hand the draft to the email
service and append an `outgoing` interaction. -/
def node_send_email (now : Int) (st : OutState) (db : OutDb) (eff : OutEffects) :
    OutState × OutDb × OutEffects :=
  if st.skip then (st, db, eff)
  else
    let eff := { eff with
      emails := eff.emails ++
        [(st.patient.email, st.subject.getD "Follow up", st.email_body.getD "")] }
    let db := { db with
      interactions := db.interactions ++
        [{ campaign_id := st.campaign._id, direction := "outgoing",
           content := st.email_body.getD "", timestamp := now }] }
    (st, db, eff)

/-- `node_call_patient`: no-op when skipped; otherwise trigger the voice call and
append an `outgoing` interaction with the static result text. -/
def node_call_patient (now : Int) (st : OutState) (db : OutDb) (eff : OutEffects) :
    OutState × OutDb × OutEffects :=
  if st.skip then (st, db, eff)
  else
    let phone := st.patient.phone.getD ""
    let eff := { eff with calls := eff.calls ++ [phone] }
    let service_name_value :=
      match st.campaign.service_name with
      | some s => if s = "" then "service" else s
      | none => "service"
    let result_text := "calling done to patient on " ++ service_name_value
    let st := { st with call_result := some result_text }
    let db := { db with
      interactions := db.interactions ++
        [{ campaign_id := st.campaign._id, direction := "outgoing",
           content := result_text, timestamp := now }] }
    (st, db, eff)

def secondsPerDay : Int := 86400

/-- The re-attempt interval in days, by campaign type (`node_ai_summary`). -/
def daysFor (ctype : String) : Int :=
  if ctype = "RECALL" then 5 else if ctype = "APPOINTMENT_REMINDER" then 0 else 5

/-- `node_ai_summary`: summarize the interaction history, overwrite
`engagement_summary`, increment `attempts_made`, and reschedule when the new
count is below `max_attempts` and the per-type interval is positive. -/
def node_ai_summary (llm : LlmOracle) (now : Int) (st : OutState) (db : OutDb)
    (eff : OutEffects) : OutState × OutDb × OutEffects :=
  let summary := llm.summarizeFormatted (outboundChatItems db)
  let c : OutCampaign := { db.campaign with engagement_summary := some summary }
  let ctype := c.campaign_type
  let days : Int := daysFor ctype
  let c : OutCampaign := { c with follow_up_details :=
    { c.follow_up_details with attempts_made := c.follow_up_details.attempts_made + 1 } }
  let c : OutCampaign :=
    if c.follow_up_details.attempts_made < c.follow_up_details.max_attempts ∧ days > 0 then
      { c with follow_up_details :=
        { c.follow_up_details with next_attempt_at := some (now + days * secondsPerDay) } }
    else c
  ({ st with engagement_summary_out := some summary }, { db with campaign := c }, eff)

/-- The result of one outbound-agent invocation. -/
structure OutResult where
  st : OutState
  db : OutDb
  eff : OutEffects
deriving Repr

/-- One invocation of the compiled outbound graph:
`follow_up` → (`send_email` | `call_patient`, by `route_action`) → `ai_summary`. -/
def runOutbound (env : AgentEnv) (llm : LlmOracle) (now : Int) (db : OutDb)
    (patient : OutPatient) : OutResult :=
  let st0 : OutState := { campaign := db.campaign, patient := patient }
  let st1 := node_follow_up env llm db st0
  let step :=
    if route_action st1.campaign = "call_patient" then node_call_patient now st1 db {}
    else node_send_email now st1 db {}
  let final := node_ai_summary llm now step.1 step.2.1 step.2.2
  { st := final.1, db := final.2.1, eff := final.2.2 }

/-! ## Gmail Pub/Sub push processing (src/services/gmail/processor.py lines 91-148,
src/email_reply_agent/reply_handler/repository.py lines 141-156)

The history listing of one push delivery is modelled as the list of
`messageAdded` messages it yields; the reply agent is an oracle that reports how
many Interaction documents one invocation appends. -/

/-- A Gmail message as the processor inspects it. -/
structure GMsg where
  msgId : String
  labelIds : List String
  inReplyTo : Option String := none
deriving DecidableEq, Repr

/-- The processing state: the `gmail_processed` dedup ledger
(emailAddress, gmailMessageId), the number of reply-agent invocations made, and
the number of Interaction documents appended by those invocations. -/
structure GmailDb where
  ledger : List (String × String) := []
  agentRuns : Nat := 0
  interactionsAdded : Nat := 0
deriving DecidableEq, Repr

/-- `has_processed_message`: the dedup-ledger `find_one` succeeds. -/
def has_processed_message (db : GmailDb) (email_address msg_id : String) : Bool :=
  decide ((email_address, msg_id) ∈ db.ledger)

/-- The per-message filter applied after the ledger check: keep only genuine
inbound items, and in replies-only mode require an `In-Reply-To` header. -/
def gmailFiltered (repliesOnly : Bool) (m : GMsg) : Bool :=
  (!(m.labelIds.contains "INBOX") || m.labelIds.contains "SENT") ||
    (repliesOnly && m.inReplyTo.isNone)

/-- Handling of one `messageAdded` entry inside `process_pubsub_push`: skip when
already in the ledger, skip non-inbound items, otherwise invoke the reply agent
and record the message as processed. -/
def processGmailMessage (agentCost : GMsg → Nat) (email_address : String)
    (repliesOnly : Bool) (db : GmailDb) (m : GMsg) : GmailDb :=
  if has_processed_message db email_address m.msgId then db
  else if gmailFiltered repliesOnly m then db
  else
    { ledger := (email_address, m.msgId) :: db.ledger,
      agentRuns := db.agentRuns + 1,
      interactionsAdded := db.interactionsAdded + agentCost m }

/-- `process_pubsub_push`, restricted to its message-handling loop: fold the
per-message handler over the messages the history pages yield. -/
def process_pubsub_push (agentCost : GMsg → Nat) (email_address : String)
    (repliesOnly : Bool) (msgs : List GMsg) (db : GmailDb) : GmailDb :=
  msgs.foldl (processGmailMessage agentCost email_address repliesOnly) db

/-! ## Inbound reply workflow (src/email_reply_agent/reply_handler/nodes.py,
graph.py, repository.py)

The workflow state is modelled after the `ReplyState` TypedDict; the campaign
slot holds the dict placed there by `load_patient_and_campaign` (`campaign or
{}`, so an unresolved campaign is a record with no `_id`).  A node-level
exception (empty reply body, missing recipient address) sets `aborted`, which
short-circuits every later node, mirroring LangGraph's propagation. -/

/-- Python `a or b` on optional strings: an absent or empty left operand falls
through to the right. -/
def pyOrS : Option String → Option String → Option String
  | some s, b => if s = "" then b else some s
  | none, b => b

/-- Python `a or dflt` where `dflt` is a plain string. -/
def pyGetTruthy (o : Option String) (dflt : String) : String :=
  match o with
  | some s => if s = "" then dflt else s
  | none => dflt

/-- `"Re: " + subject` threading rule shared by all `generate_*_email` nodes. -/
def reSubject (inbound_subject : Option String) (dflt : String) : String :=
  match inbound_subject with
  | none => dflt
  | some s =>
    if s ≠ "" ∧ ¬ (pyStartsWith (pyLower s) "re:" = true) then "Re: " ++ s
    else if s = "" then dflt else s

/-- The campaign dict sitting in the workflow state after
`load_patient_and_campaign` (`state["campaign"] = campaign or {}`). -/
structure RCampaignView where
  _id : Option String := none
  campaign_type : Option String := none
  patientSubName : Option String := none
  patient_name : Option String := none
  patientSubEmail : Option String := none
  patient_email : Option String := none
  email : Option String := none
deriving DecidableEq, Repr

/-- The reply workflow state. -/
structure RState where
  thread_id : Option String := none
  reply_email_body : String := ""
  patient_email : Option String := none
  patient_name : Option String := none
  message_id : Option String := none
  inbound_subject : Option String := none
  inbound_references : Option String := none
  campaign : RCampaignView := {}
  classified_intent : Option String := none
  incoming_sentiment : Option String := none
  outgoing_sentiment : Option String := none
  outgoing_intent : Option String := none
  booking_link : Option String := none
  email_content : Option String := none
  subject : Option String := none
  kb_answer : Option String := none
deriving DecidableEq, Repr

/-- A stored campaign document, reduced to the fields the repository writes. -/
structure RCampaignDoc where
  _id : String
  rStatus : String := ""
  next_attempt_at : Option Int := none
  attempts_made : Option Int := none
  bookingStatus : Option String := none
  bookingLink : Option String := none
  threadId : Option String := none
  engagement_summary : Option String := none
  updated_at : Int := 0
deriving DecidableEq, Repr

/-- A stored interaction document as the reply agent appends it. -/
structure RInteraction where
  campaign_id : String
  direction : String
  content : String
  intent : Option String := none
  sentiment : Option String := none
  timestamp : Int := 0
deriving DecidableEq, Repr

/-- The slice of the document store the reply workflow touches. -/
structure ReplyDb where
  campaigns : List RCampaignDoc := []
  interactions : List RInteraction := []
deriving DecidableEq, Repr

/-- `insert_interaction` (repository.py). -/
def r_insert_interaction (db : ReplyDb) (campaign_id direction content : String)
    (intent sentiment : Option String) (now : Int) : ReplyDb :=
  { db with interactions := db.interactions ++
      [{ campaign_id := campaign_id, direction := direction, content := content,
         intent := intent, sentiment := sentiment, timestamp := now }] }

/-- `set_campaign_declined` (repository.py). -/
def r_set_campaign_declined (db : ReplyDb) (campaign_id : String) (now : Int) : ReplyDb :=
  { db with campaigns := db.campaigns.map (fun c =>
      if c._id = campaign_id then { c with rStatus := "RECOVERY_DECLINED", updated_at := now }
      else c) }

/-- `set_campaign_form_sent` (repository.py). -/
def r_set_campaign_form_sent (db : ReplyDb) (campaign_id link_url reply_thread_id : String)
    (now : Int) : ReplyDb :=
  { db with campaigns := db.campaigns.map (fun c =>
      if c._id = campaign_id then
        { c with rStatus := "BOOKING_INITIATED",
                 next_attempt_at := some (now + 1 * secondsPerDay),
                 attempts_made := some 1,
                 bookingStatus := some "FORM_SENT",
                 bookingLink := some link_url,
                 threadId := some reply_thread_id,
                 updated_at := now }
      else c) }

/-- `set_campaign_handoff_required` (db.py / repository.py). -/
def r_set_campaign_handoff_required (db : ReplyDb) (campaign_id : String) (now : Int) : ReplyDb :=
  { db with campaigns := db.campaigns.map (fun c =>
      if c._id = campaign_id then { c with rStatus := "HANDOFF_REQUIRED", updated_at := now }
      else c) }

/-- `update_engagement_summary` (repository.py). -/
def r_update_engagement_summary (db : ReplyDb) (campaign_id summary : String) (now : Int) :
    ReplyDb :=
  { db with campaigns := db.campaigns.map (fun c =>
      if c._id = campaign_id then { c with engagement_summary := some summary, updated_at := now }
      else c) }

/-- An email handed to the Gmail sender. -/
structure RSentEmail where
  toAddr : String
  subject : String
  body : String
deriving DecidableEq, Repr

/-- The running invocation: workflow state, database, sent emails, abort flag. -/
structure RRun where
  st : RState
  db : ReplyDb
  sent : List RSentEmail := []
  aborted : Bool := false
deriving DecidableEq, Repr

/-- External services of the reply workflow: the LLM classifier calls and the
Gmail send response, as oracles. -/
structure ReplyOracle where
  classifyIntent : String → String
  sentimentOf : String → String
  kbAnswer : String → String
  summarize : List String → String
  gmailThreadId : Option String := none

/-- Settings read by the reply workflow. -/
structure ReplyEnv where
  hasApiKey : Bool := false
  bookingBaseUrl : String := "http://localhost:3000/book"

/-- `analyze_incoming`: raises when the body is empty; keyword fallback without
an API key, constrained LLM classification (coerced to `question` outside the
allowed intents) with it. -/
def analyze_incoming_node (env : ReplyEnv) (o : ReplyOracle) (r : RRun) : RRun :=
  if r.aborted then r else
  let body := r.st.reply_email_body
  if body = "" then { r with aborted := true }
  else if ¬ env.hasApiKey then
    let res := analyze_incoming_fallback body
    { r with st := { r.st with
        classified_intent := some res.1, incoming_sentiment := some res.2 } }
  else
    let intent_text := pyLower (pyStrip (o.classifyIntent body))
    let intent := if ALLOWED_INTENTS.contains intent_text then intent_text else "question"
    { r with st := { r.st with
        classified_intent := some intent,
        incoming_sentiment := some (pyLower (pyStrip (o.sentimentOf body))) } }

/-- `record_incoming_interaction`: append only when a campaign id was resolved. -/
def record_incoming_interaction_node (now : Int) (r : RRun) : RRun :=
  if r.aborted then r else
  match r.st.campaign._id with
  | none => r
  | some cid =>
    { r with db := (r_insert_interaction r.db cid "incoming" r.st.reply_email_body
        r.st.classified_intent r.st.incoming_sentiment now) }

/-- The intent router installed after `record_incoming_interaction`. -/
def reply_router (st : RState) : String :=
  if st.classified_intent = some "booking_request" ∧
      (st.campaign.campaign_type = some "RECOVERY" ∨ st.campaign.campaign_type = some "RECALL") then
    "generate_booking_email"
  else if st.classified_intent = some "service_denial" then "update_campaign_to_declined"
  else if st.classified_intent = some "irrelevant_confused" then "generate_disambiguation_email"
  else if st.classified_intent = some "question" then "query_knowledge_base"
  else "ai_summary"

/-- Patient display name fallback chain shared by the `generate_*_email` nodes. -/
def rPatientName (st : RState) : String :=
  pyGetTruthy (pyOrS st.campaign.patientSubName (pyOrS st.campaign.patient_name st.patient_name))
    "there"

/-- `generate_booking_email`. -/
def generate_booking_email_node (env : ReplyEnv) (r : RRun) : RRun :=
  if r.aborted then r else
  let link := env.bookingBaseUrl
  let patient_name := rPatientName r.st
  let email_content :=
    "Hi " ++ patient_name ++ ",\n\n" ++
    "Thanks for your reply. You can choose a convenient time using the link below:\n" ++
    link ++ "\n\nIf you have any questions, just reply to this email.\n\n" ++
    "Best,\nBright Smile Clinic Team" ++ "Contact us at +55 (11) 4567-8910"
  { r with st := { r.st with
      booking_link := some link,
      email_content := some email_content,
      subject := some (reSubject r.st.inbound_subject "Schedule your appointment") } }

/-- `generate_disambiguation_email`. -/
def generate_disambiguation_email_node (r : RRun) : RRun :=
  if r.aborted then r else
  let body :=
    "Hello " ++ rPatientName r.st ++ ",\n\n" ++
    "Thank you for your reply. I was unable to understand your message clearly.\n" ++
    "To ensure you get the help you need, please feel free to call our patient helpline directly at +91 27017 35235.\n" ++
    "Our team there will be happy to assist you.\n\nThank you."
  { r with st := { r.st with
      email_content := some body,
      subject := some (reSubject r.st.inbound_subject "Quick clarification") } }

/-- `generate_declined_email`. -/
def generate_declined_email_node (r : RRun) : RRun :=
  if r.aborted then r else
  let body :=
    "Hello " ++ rPatientName r.st ++ ",\n\n" ++
    "We have received your message. You will not receive any further automated communications from us for this campaign.\n" ++
    "We wish you all the best."
  { r with st := { r.st with
      email_content := some body,
      subject := some (reSubject r.st.inbound_subject "Confirmation") } }

/-- `update_campaign_to_declined`: guarded on a resolved campaign id. -/
def update_campaign_to_declined_node (now : Int) (r : RRun) : RRun :=
  if r.aborted then r else
  match r.st.campaign._id with
  | none => r
  | some cid => { r with db := r_set_campaign_declined r.db cid now }

/-- `query_knowledge_base`: empty question short-circuits; keyword fallback
without an API key; stripped LLM answer (empty coerced to the sentinel) with it. -/
def query_knowledge_base_node (env : ReplyEnv) (o : ReplyOracle) (r : RRun) : RRun :=
  if r.aborted then r else
  let question := pyStrip r.st.reply_email_body
  if question = "" then { r with st := { r.st with kb_answer := some "NO_ANSWER" } }
  else if ¬ env.hasApiKey then
    { r with st := { r.st with kb_answer := some (query_knowledge_base_fallback r.st.reply_email_body) } }
  else
    let answer := pyStrip (o.kbAnswer question)
    { r with st := { r.st with kb_answer := some (if answer = "" then "NO_ANSWER" else answer) } }

/-- `generate_answer_email`. -/
def generate_answer_email_node (r : RRun) : RRun :=
  if r.aborted then r else
  let answer := (r.st.kb_answer).getD "NO_ANSWER"
  let body :=
    "Hello " ++ rPatientName r.st ++ ",\n\n" ++
    "Thank you for your question. Here is the information you requested:\n\n" ++
    answer ++ "\n\nIf anything is unclear, feel free to reply to this email."
  { r with st := { r.st with
      email_content := some body,
      subject := some (reSubject r.st.inbound_subject "Your question") } }

/-- `update_campaign_for_handoff`: guarded on a resolved campaign id. -/
def update_campaign_for_handoff_node (now : Int) (r : RRun) : RRun :=
  if r.aborted then r else
  match r.st.campaign._id with
  | none => r
  | some cid => { r with db := r_set_campaign_handoff_required r.db cid now }

/-- `generate_handoff_email`. -/
def generate_handoff_email_node (r : RRun) : RRun :=
  if r.aborted then r else
  let body :=
    "Hello " ++ rPatientName r.st ++ ",\n\n" ++
    "Thank you for your question. Our team will review it and get back to you shortly."
  { r with st := { r.st with
      email_content := some body,
      subject := some (reSubject r.st.inbound_subject "We will get back to you") } }

/-- `send_reply_email`: raises when no recipient can be resolved; otherwise the
draft goes to the Gmail sender and the thread id is aligned to its response. -/
def send_reply_email_node (o : ReplyOracle) (r : RRun) : RRun :=
  if r.aborted then r else
  let to_email := pyOrS r.st.campaign.patientSubEmail
    (pyOrS r.st.campaign.patient_email (pyOrS r.st.campaign.email r.st.patient_email))
  match to_email with
  | none => { r with aborted := true }
  | some e =>
    let r := { r with sent := r.sent ++
      [{ toAddr := e, subject := r.st.subject.getD "", body := r.st.email_content.getD "" }] }
    match o.gmailThreadId with
    | some t => { r with st := { r.st with thread_id := some t } }
    | none => r

/-- `analyze_outgoing`: neutral fallback without an API key; carries the
incoming intent forward as the outgoing intent. -/
def analyze_outgoing_node (env : ReplyEnv) (o : ReplyOracle) (r : RRun) : RRun :=
  if r.aborted then r else
  let body := r.st.email_content.getD ""
  if body = "" then r
  else if ¬ env.hasApiKey then
    { r with st := { r.st with
        outgoing_sentiment := some "neutral", outgoing_intent := r.st.classified_intent } }
  else
    { r with st := { r.st with
        outgoing_sentiment := some (pyLower (pyStrip (o.sentimentOf body))),
        outgoing_intent := r.st.classified_intent } }

/-- `record_outgoing_interaction`: append only when a campaign id was resolved. -/
def record_outgoing_interaction_node (now : Int) (r : RRun) : RRun :=
  if r.aborted then r else
  match r.st.campaign._id with
  | none => r
  | some cid =>
    { r with db := (r_insert_interaction r.db cid "outgoing" (r.st.email_content.getD "")
        r.st.outgoing_intent r.st.outgoing_sentiment now) }

/-- The post-send router: booking replies on RECOVERY/RECALL campaigns advance
the campaign before summarizing. -/
def post_outgoing_router (st : RState) : String :=
  if st.classified_intent = some "booking_request" ∧
      (st.campaign.campaign_type = some "RECOVERY" ∨ st.campaign.campaign_type = some "RECALL") then
    "update_campaign_status"
  else "ai_summary"

/-- `update_campaign_status`: guarded on campaign id, thread id and booking link. -/
def update_campaign_status_node (now : Int) (r : RRun) : RRun :=
  if r.aborted then r else
  match r.st.campaign._id, r.st.thread_id, r.st.booking_link with
  | some cid, some tid, some link =>
    if tid = "" ∨ link = "" then r
    else { r with db := r_set_campaign_form_sent r.db cid link tid now }
  | _, _, _ => r

/-- Insertion into a timestamp-sorted reply-interaction list. -/
def rInsertByTs (i : RInteraction) : List RInteraction → List RInteraction
  | [] => [i]
  | j :: rest => if i.timestamp ≤ j.timestamp then i :: j :: rest else j :: rInsertByTs i rest

def rSortByTs (l : List RInteraction) : List RInteraction := l.foldr rInsertByTs []

/-- The `"ISO_TIMESTAMP | direction: content"` history lines fed to summarization. -/
def rHistoryLines (db : ReplyDb) (cid : String) : List String :=
  (rSortByTs (db.interactions.filter (fun i => i.campaign_id = cid))).map
    (fun i => toString i.timestamp ++ " | " ++ i.direction ++ ": " ++ i.content)

/-- The reply agent's `ai_summary`: no-ops without a resolved campaign or without
interactions; otherwise overwrites the engagement summary (last history line as
the keyless fallback text). -/
def reply_ai_summary_node (env : ReplyEnv) (o : ReplyOracle) (now : Int) (r : RRun) : RRun :=
  if r.aborted then r else
  match r.st.campaign._id with
  | none => r
  | some cid =>
    let history_lines := rHistoryLines r.db cid
    if history_lines = [] then r
    else
      let summary_text :=
        if ¬ env.hasApiKey then history_lines.getLast? |>.getD ""
        else o.summarize history_lines
      { r with db := r_update_engagement_summary r.db cid summary_text now }

/-- Post-send tail shared by every branch that sent a reply:
`analyze_outgoing` → `record_outgoing_interaction` → post-send router. -/
def after_send_chain (env : ReplyEnv) (o : ReplyOracle) (now : Int) (r : RRun) : RRun :=
  let r := analyze_outgoing_node env o r
  let r := record_outgoing_interaction_node now r
  if post_outgoing_router r.st = "update_campaign_status" then update_campaign_status_node now r
  else r

/-- The compiled reply graph from `analyze_incoming` on (the portion after
`load_patient_and_campaign` has populated `state["campaign"]`). -/
def run_reply_post_load (env : ReplyEnv) (o : ReplyOracle) (now : Int) (r0 : RRun) : RRun :=
  let r := analyze_incoming_node env o r0
  let r := record_incoming_interaction_node now r
  let route := reply_router r.st
  let r :=
    if route = "generate_booking_email" then
      after_send_chain env o now (send_reply_email_node o (generate_booking_email_node env r))
    else if route = "update_campaign_to_declined" then
      after_send_chain env o now
        (send_reply_email_node o (generate_declined_email_node (update_campaign_to_declined_node now r)))
    else if route = "generate_disambiguation_email" then
      after_send_chain env o now (send_reply_email_node o (generate_disambiguation_email_node r))
    else if route = "query_knowledge_base" then
      let r := query_knowledge_base_node env o r
      let r :=
        if answer_checker r.st.kb_answer = "generate_answer_email" then
          generate_answer_email_node r
        else generate_handoff_email_node (update_campaign_for_handoff_node now r)
      after_send_chain env o now (send_reply_email_node o r)
    else r
  reply_ai_summary_node env o now r

/-! ## Concrete sample inputs used by witnesses and counterexamples -/

/-- A deterministic stand-in for the hosted LLM. -/
def constLlm : LlmOracle :=
  { generateCampaignMessage := fun _ _ _ _ _ => "llm re-engagement message",
    summarizeFormatted := fun _ => "llm summary" }

/-- A deterministic stand-in for timezone/strftime rendering. -/
def constAgentEnv : AgentEnv :=
  { formatLocal := fun _ => ("Monday", "January 05, 2026", "10:00 AM UTC") }

def samplePatient : OutPatient :=
  { pname := "Ana Souza", email := "ana@example.com", phone := some "+5511999990000" }

/-- A terminal (RECOVERED) RECALL campaign with attempt budget left. -/
def terminalRecallDb : OutDb :=
  { campaign :=
    { _id := some "c1", campaign_type := "RECALL", cStatus := "RECOVERED",
      service_name := some "Cleaning",
      follow_up_details := { attempts_made := 0, max_attempts := 3 } } }

/-- A terminal (RECOVERED) APPOINTMENT_REMINDER campaign with attempt budget left. -/
def terminalReminderDb : OutDb :=
  { campaign :=
    { _id := some "c2", campaign_type := "APPOINTMENT_REMINDER", cStatus := "RECOVERED",
      service_name := some "Implant consultation",
      follow_up_details := { attempts_made := 0, max_attempts := 1 } } }

/-- A campaign whose attempt budget is exhausted. -/
def exhaustedDb : OutDb :=
  { campaign :=
    { _id := some "c3", campaign_type := "RECOVERY", cStatus := "ATTEMPTING_RECOVERY",
      service_name := some "Whitening",
      follow_up_details := { attempts_made := 2, max_attempts := 2 } } }

/-- An active RECALL campaign on its first attempt. -/
def activeRecallDb : OutDb :=
  { campaign :=
    { _id := some "c4", campaign_type := "RECALL", cStatus := "QUEUED",
      service_name := some "Check-up",
      follow_up_details := { attempts_made := 0, max_attempts := 3, next_attempt_at := some 50 } } }

/-- An active APPOINTMENT_REMINDER campaign before its single attempt. -/
def activeReminderDb : OutDb :=
  { campaign :=
    { _id := some "c5", campaign_type := "APPOINTMENT_REMINDER", cStatus := "QUEUED",
      service_name := some "Check-up",
      follow_up_details := { attempts_made := 0, max_attempts := 1, next_attempt_at := some 75 } },
    appointments := [{ campaign_id := some "c5", appointment_date := some 99,
                       consulting_doctor := some "Maria" }] }

/-- A message already accounted for: in the dedup ledger, or excluded by the
inbound/replies filters (which are db-independent). -/
def gmailHandled (ea : String) (ro : Bool) (db : GmailDb) (m : GMsg) : Prop :=
  (ea, m.msgId) ∈ db.ledger ∨ gmailFiltered ro m = true

/-- A deterministic stand-in for the reply workflow's external services. -/
def constReplyOracle : ReplyOracle :=
  { classifyIntent := fun _ => "question",
    sentimentOf := fun _ => "neutral",
    kbAnswer := fun _ => "NO_ANSWER",
    summarize := fun _ => "oracle summary",
    gmailThreadId := none }

/-- A workflow state for which `load_patient_and_campaign` resolved no campaign:
the campaign slot is the empty dict, so it carries no `_id`. -/
def noCampaignState : RState :=
  { thread_id := some "t-77", reply_email_body := "What are your opening hours?",
    patient_email := some "ana@example.com", patient_name := some "Ana Souza" }

/-- A small stored-document state to exhibit that no write happens. -/
def sampleReplyDb : ReplyDb :=
  { campaigns := [{ _id := "c9", rStatus := "ATTEMPTING_RECOVERY" }],
    interactions := [{ campaign_id := "c9", direction := "outgoing",
                       content := "hello", timestamp := 3 }] }

/-! ## Helper lemmas: outbound campaign agent -/

theorem node_follow_up_skip_of_guard (env : AgentEnv) (llm : LlmOracle) (db : OutDb)
    (st : OutState)
    (h : st.campaign.follow_up_details.attempts_made ≥ st.campaign.follow_up_details.max_attempts) :
    node_follow_up env llm db st = { st with skip := true } := by
  unfold node_follow_up
  simp [h]

theorem node_follow_up_skip_of_terminal (env : AgentEnv) (llm : LlmOracle) (db : OutDb)
    (st : OutState)
    (htype : st.campaign.campaign_type ≠ "APPOINTMENT_REMINDER")
    (hstatus : st.campaign.cStatus = "RECOVERED" ∨ st.campaign.cStatus = "RECOVERY_FAILED") :
    node_follow_up env llm db st = { st with skip := true } := by
  unfold node_follow_up
  by_cases hg : st.campaign.follow_up_details.attempts_made ≥ st.campaign.follow_up_details.max_attempts
  · simp [hg]
  · rcases hstatus with h | h <;> simp [hg, htype, h]

theorem node_send_email_skip (now : Int) (st : OutState) (db : OutDb) (eff : OutEffects)
    (h : st.skip = true) : node_send_email now st db eff = (st, db, eff) := by
  simp [node_send_email, h]

theorem node_call_patient_skip (now : Int) (st : OutState) (db : OutDb) (eff : OutEffects)
    (h : st.skip = true) : node_call_patient now st db eff = (st, db, eff) := by
  simp [node_call_patient, h]

theorem node_send_email_campaign (now : Int) (st : OutState) (db : OutDb) (eff : OutEffects) :
    (node_send_email now st db eff).2.1.campaign = db.campaign := by
  unfold node_send_email
  split <;> rfl

theorem node_call_patient_campaign (now : Int) (st : OutState) (db : OutDb) (eff : OutEffects) :
    (node_call_patient now st db eff).2.1.campaign = db.campaign := by
  unfold node_call_patient
  split <;> rfl

theorem node_ai_summary_eff (llm : LlmOracle) (now : Int) (st : OutState) (db : OutDb)
    (eff : OutEffects) : (node_ai_summary llm now st db eff).2.2 = eff := by
  unfold node_ai_summary
  dsimp only

theorem node_ai_summary_interactions (llm : LlmOracle) (now : Int) (st : OutState) (db : OutDb)
    (eff : OutEffects) : (node_ai_summary llm now st db eff).2.1.interactions = db.interactions := by
  unfold node_ai_summary
  dsimp only

theorem node_ai_summary_attempts (llm : LlmOracle) (now : Int) (st : OutState) (db : OutDb)
    (eff : OutEffects) :
    (node_ai_summary llm now st db eff).2.1.campaign.follow_up_details.attempts_made =
      db.campaign.follow_up_details.attempts_made + 1 := by
  unfold node_ai_summary
  dsimp only
  all_goals split <;> rfl

theorem node_ai_summary_status (llm : LlmOracle) (now : Int) (st : OutState) (db : OutDb)
    (eff : OutEffects) :
    (node_ai_summary llm now st db eff).2.1.campaign.cStatus = db.campaign.cStatus := by
  unfold node_ai_summary
  dsimp only
  all_goals split <;> rfl

theorem node_ai_summary_ctype (llm : LlmOracle) (now : Int) (st : OutState) (db : OutDb)
    (eff : OutEffects) :
    (node_ai_summary llm now st db eff).2.1.campaign.campaign_type =
      db.campaign.campaign_type := by
  unfold node_ai_summary
  dsimp only
  all_goals split <;> rfl

theorem node_ai_summary_engagement (llm : LlmOracle) (now : Int) (st : OutState) (db : OutDb)
    (eff : OutEffects) :
    (node_ai_summary llm now st db eff).2.1.campaign.engagement_summary =
      some (llm.summarizeFormatted (outboundChatItems db)) := by
  unfold node_ai_summary
  dsimp only
  all_goals split <;> rfl

theorem node_ai_summary_next (llm : LlmOracle) (now : Int) (st : OutState) (db : OutDb)
    (eff : OutEffects) :
    (node_ai_summary llm now st db eff).2.1.campaign.follow_up_details.next_attempt_at =
      (if db.campaign.follow_up_details.attempts_made + 1 <
            db.campaign.follow_up_details.max_attempts ∧ daysFor db.campaign.campaign_type > 0 then
        some (now + daysFor db.campaign.campaign_type * secondsPerDay)
      else db.campaign.follow_up_details.next_attempt_at) := by
  unfold node_ai_summary
  dsimp only
  all_goals split <;> rfl

theorem runOutbound_attempts (env : AgentEnv) (llm : LlmOracle) (now : Int) (db : OutDb)
    (p : OutPatient) :
    (runOutbound env llm now db p).db.campaign.follow_up_details.attempts_made =
      db.campaign.follow_up_details.attempts_made + 1 := by
  unfold runOutbound
  dsimp only
  split
  · rw [node_ai_summary_attempts, node_call_patient_campaign]
  · rw [node_ai_summary_attempts, node_send_email_campaign]

theorem runOutbound_status (env : AgentEnv) (llm : LlmOracle) (now : Int) (db : OutDb)
    (p : OutPatient) :
    (runOutbound env llm now db p).db.campaign.cStatus = db.campaign.cStatus := by
  unfold runOutbound
  dsimp only
  split
  · rw [node_ai_summary_status, node_call_patient_campaign]
  · rw [node_ai_summary_status, node_send_email_campaign]

theorem runOutbound_ctype (env : AgentEnv) (llm : LlmOracle) (now : Int) (db : OutDb)
    (p : OutPatient) :
    (runOutbound env llm now db p).db.campaign.campaign_type = db.campaign.campaign_type := by
  unfold runOutbound
  dsimp only
  split
  · rw [node_ai_summary_ctype, node_call_patient_campaign]
  · rw [node_ai_summary_ctype, node_send_email_campaign]

theorem runOutbound_next (env : AgentEnv) (llm : LlmOracle) (now : Int) (db : OutDb)
    (p : OutPatient) :
    (runOutbound env llm now db p).db.campaign.follow_up_details.next_attempt_at =
      (if db.campaign.follow_up_details.attempts_made + 1 <
            db.campaign.follow_up_details.max_attempts ∧ daysFor db.campaign.campaign_type > 0 then
        some (now + daysFor db.campaign.campaign_type * secondsPerDay)
      else db.campaign.follow_up_details.next_attempt_at) := by
  unfold runOutbound
  dsimp only
  split
  · rw [node_ai_summary_next, node_call_patient_campaign]
  · rw [node_ai_summary_next, node_send_email_campaign]

/-- When `follow_up` marks the turn skipped, the invocation produces no email,
no call, no interaction, and only the summarization write. -/
theorem runOutbound_skip_effects (env : AgentEnv) (llm : LlmOracle) (now : Int) (db : OutDb)
    (p : OutPatient)
    (hs : node_follow_up env llm db { campaign := db.campaign, patient := p } =
      { campaign := db.campaign, patient := p, skip := true }) :
    (runOutbound env llm now db p).eff = {} ∧
    (runOutbound env llm now db p).db.interactions = db.interactions ∧
    (runOutbound env llm now db p).db.campaign.engagement_summary =
      some (llm.summarizeFormatted (outboundChatItems db)) := by
  have hcall := node_call_patient_skip now
    { campaign := db.campaign, patient := p, skip := true } db {} rfl
  have hmail := node_send_email_skip now
    { campaign := db.campaign, patient := p, skip := true } db {} rfl
  unfold runOutbound
  dsimp only
  rw [hs, hcall, hmail, ite_self]
  exact ⟨node_ai_summary_eff .., node_ai_summary_interactions .., node_ai_summary_engagement ..⟩

theorem daysFor_recall : daysFor "RECALL" = 5 := rfl

theorem daysFor_reminder : daysFor "APPOINTMENT_REMINDER" = 0 := rfl

/-- C5: the router after `follow_up` chooses `call_patient` exactly for a
RECOVERY campaign in ATTEMPTING_RECOVERY whose channel type is `"sms"`
case-insensitively; every other combination goes to `send_email`. -/
theorem route_action_characterization (c : OutCampaign) :
    (route_action c = "call_patient" ↔
      c.campaign_type = "RECOVERY" ∧ c.cStatus = "ATTEMPTING_RECOVERY" ∧
        pyLower (((c.channel.getD {}).chType).getD "") = "sms") ∧
    (route_action c = "call_patient" ∨ route_action c = "send_email") := by
  by_cases h : c.campaign_type = "RECOVERY" ∧ c.cStatus = "ATTEMPTING_RECOVERY" ∧
      pyLower (((c.channel.getD {}).chType).getD "") = "sms"
  · constructor
    · simp [route_action, h]
    · left
      simp [route_action, h]
  · have hr : route_action c = "send_email" := by
      unfold route_action
      dsimp only
      rw [if_neg h]
    constructor
    · rw [hr]
      constructor
      · intro hc
        exact absurd hc (by decide)
      · intro hc
        exact absurd hc h
    · right
      exact hr

/-- C3: with the attempt budget exhausted (`attempts_made ≥ max_attempts`) one
invocation of the outbound agent sends no email, triggers no call, appends no
interaction, while `ai_summary` still runs (it overwrites the engagement summary
from the unchanged interaction history). -/
theorem attempt_limit_skip_path (env : AgentEnv) (llm : LlmOracle) (now : Int) (db : OutDb)
    (p : OutPatient)
    (h : db.campaign.follow_up_details.attempts_made ≥
      db.campaign.follow_up_details.max_attempts) :
    (runOutbound env llm now db p).eff.emails = [] ∧
    (runOutbound env llm now db p).eff.calls = [] ∧
    (runOutbound env llm now db p).db.interactions = db.interactions ∧
    (runOutbound env llm now db p).db.campaign.engagement_summary =
      some (llm.summarizeFormatted (outboundChatItems db)) := by
  have hs := node_follow_up_skip_of_guard env llm db { campaign := db.campaign, patient := p } h
  obtain ⟨he, hi, hsum⟩ := runOutbound_skip_effects env llm now db p hs
  exact ⟨by rw [he], by rw [he], hi, hsum⟩

/-- C3 witness: the skip path evaluated on a campaign whose budget is exhausted. -/
theorem attempt_limit_skip_path_witness :
    (exhaustedDb.campaign.follow_up_details.attempts_made ≥
      exhaustedDb.campaign.follow_up_details.max_attempts) ∧
    ((runOutbound constAgentEnv constLlm 0 exhaustedDb samplePatient).eff.emails = [] ∧
     (runOutbound constAgentEnv constLlm 0 exhaustedDb samplePatient).eff.calls = [] ∧
     (runOutbound constAgentEnv constLlm 0 exhaustedDb samplePatient).db.interactions =
       exhaustedDb.interactions ∧
     (runOutbound constAgentEnv constLlm 0 exhaustedDb samplePatient).db.campaign.engagement_summary =
       some (constLlm.summarizeFormatted (outboundChatItems exhaustedDb))) :=
  ⟨by decide, attempt_limit_skip_path constAgentEnv constLlm 0 exhaustedDb samplePatient (by decide)⟩

/-- C4: a RECALL run increments `attempts_made` by exactly 1 and, when the new
count is still below `max_attempts`, schedules `next_attempt_at` five days after
the summarization timestamp; an APPOINTMENT_REMINDER run (interval 0 days) never
reschedules `next_attempt_at`. -/
theorem reschedule_arithmetic (env : AgentEnv) (llm : LlmOracle) (now : Int)
    (db₁ db₂ : OutDb) (p₁ p₂ : OutPatient)
    (h1 : db₁.campaign.campaign_type = "RECALL")
    (h3 : db₁.campaign.follow_up_details.attempts_made + 1 <
      db₁.campaign.follow_up_details.max_attempts)
    (h2 : db₂.campaign.campaign_type = "APPOINTMENT_REMINDER") :
    (runOutbound env llm now db₁ p₁).db.campaign.follow_up_details.attempts_made =
      db₁.campaign.follow_up_details.attempts_made + 1 ∧
    (runOutbound env llm now db₁ p₁).db.campaign.follow_up_details.next_attempt_at =
      some (now + 5 * secondsPerDay) ∧
    (runOutbound env llm now db₂ p₂).db.campaign.follow_up_details.next_attempt_at =
      db₂.campaign.follow_up_details.next_attempt_at := by
  refine ⟨runOutbound_attempts env llm now db₁ p₁, ?_, ?_⟩
  · rw [runOutbound_next, h1, daysFor_recall, if_pos ⟨h3, by norm_num⟩]
  · rw [runOutbound_next, h2, daysFor_reminder, if_neg]
    intro hcontra
    exact absurd hcontra.2 (by norm_num)

/-- C4 witness: the reschedule arithmetic evaluated on a first-attempt RECALL
campaign and on a single-shot APPOINTMENT_REMINDER campaign. -/
theorem reschedule_arithmetic_witness :
    (activeRecallDb.campaign.campaign_type = "RECALL" ∧
      activeRecallDb.campaign.follow_up_details.attempts_made + 1 <
        activeRecallDb.campaign.follow_up_details.max_attempts ∧
      activeReminderDb.campaign.campaign_type = "APPOINTMENT_REMINDER") ∧
    ((runOutbound constAgentEnv constLlm 100 activeRecallDb samplePatient).db.campaign.follow_up_details.attempts_made =
        activeRecallDb.campaign.follow_up_details.attempts_made + 1 ∧
      (runOutbound constAgentEnv constLlm 100 activeRecallDb samplePatient).db.campaign.follow_up_details.next_attempt_at =
        some (100 + 5 * secondsPerDay) ∧
      (runOutbound constAgentEnv constLlm 100 activeReminderDb samplePatient).db.campaign.follow_up_details.next_attempt_at =
        activeReminderDb.campaign.follow_up_details.next_attempt_at) :=
  ⟨⟨by decide, by decide, by decide⟩,
    reschedule_arithmetic constAgentEnv constLlm 100 activeRecallDb activeReminderDb
      samplePatient samplePatient (by decide) (by decide) (by decide)⟩

/-- C1 counterexample: on a RECOVERED RECALL campaign a single invocation still
advances `attempts_made` (0 becomes 1), and on a RECOVERED APPOINTMENT_REMINDER
campaign a single invocation sends an email and appends an interaction — both
contradicting the claim as stated for every terminal-status campaign. -/
theorem terminal_campaign_counterexample :
    ((runOutbound constAgentEnv constLlm 0 terminalRecallDb samplePatient).db.campaign.follow_up_details.attempts_made = 1 ∧
      terminalRecallDb.campaign.follow_up_details.attempts_made = 0) ∧
    ((runOutbound constAgentEnv constLlm 0 terminalReminderDb samplePatient).eff.emails.length = 1 ∧
      (runOutbound constAgentEnv constLlm 0 terminalReminderDb samplePatient).db.interactions.length =
        terminalReminderDb.interactions.length + 1) := by
  decide

/-- C1 (amended): on a terminal-status campaign of a non-reminder type, one
invocation sends no email, triggers no call, appends no interaction, preserves
status and type (so repeated invocations stay messaging no-ops), overwrites the
engagement summary via the fixed summarization call, and advances
`attempts_made` by exactly 1. -/
theorem terminal_campaign_messaging_noop (env : AgentEnv) (llm : LlmOracle) (now now₂ : Int)
    (db : OutDb) (p : OutPatient)
    (htype : db.campaign.campaign_type ≠ "APPOINTMENT_REMINDER")
    (hstatus : db.campaign.cStatus = "RECOVERED" ∨ db.campaign.cStatus = "RECOVERY_FAILED") :
    (runOutbound env llm now db p).eff.emails = [] ∧
    (runOutbound env llm now db p).eff.calls = [] ∧
    (runOutbound env llm now db p).db.interactions = db.interactions ∧
    (runOutbound env llm now db p).db.campaign.cStatus = db.campaign.cStatus ∧
    (runOutbound env llm now db p).db.campaign.campaign_type = db.campaign.campaign_type ∧
    (runOutbound env llm now db p).db.campaign.follow_up_details.attempts_made =
      db.campaign.follow_up_details.attempts_made + 1 ∧
    (runOutbound env llm now db p).db.campaign.engagement_summary =
      some (llm.summarizeFormatted (outboundChatItems db)) ∧
    (runOutbound env llm now₂ (runOutbound env llm now db p).db p).eff.emails = [] ∧
    (runOutbound env llm now₂ (runOutbound env llm now db p).db p).eff.calls = [] ∧
    (runOutbound env llm now₂ (runOutbound env llm now db p).db p).db.interactions =
      db.interactions := by
  have hs := node_follow_up_skip_of_terminal env llm db
    { campaign := db.campaign, patient := p } htype hstatus
  obtain ⟨he, hi, hsum⟩ := runOutbound_skip_effects env llm now db p hs
  have htype₂ : (runOutbound env llm now db p).db.campaign.campaign_type ≠
      "APPOINTMENT_REMINDER" := by
    rw [runOutbound_ctype]
    exact htype
  have hstatus₂ : (runOutbound env llm now db p).db.campaign.cStatus = "RECOVERED" ∨
      (runOutbound env llm now db p).db.campaign.cStatus = "RECOVERY_FAILED" := by
    rw [runOutbound_status]
    exact hstatus
  have hs₂ := node_follow_up_skip_of_terminal env llm (runOutbound env llm now db p).db
    { campaign := (runOutbound env llm now db p).db.campaign, patient := p } htype₂ hstatus₂
  obtain ⟨he₂, hi₂, _⟩ :=
    runOutbound_skip_effects env llm now₂ (runOutbound env llm now db p).db p hs₂
  refine ⟨by rw [he], by rw [he], hi, runOutbound_status .., runOutbound_ctype ..,
    runOutbound_attempts .., hsum, by rw [he₂], by rw [he₂], by rw [hi₂, hi]⟩

/-- C1 witness: the amended no-op property evaluated on a RECOVERED RECALL campaign. -/
theorem terminal_campaign_messaging_noop_witness :
    (terminalRecallDb.campaign.campaign_type ≠ "APPOINTMENT_REMINDER" ∧
      (terminalRecallDb.campaign.cStatus = "RECOVERED" ∨
        terminalRecallDb.campaign.cStatus = "RECOVERY_FAILED")) ∧
    ((runOutbound constAgentEnv constLlm 0 terminalRecallDb samplePatient).eff.emails = [] ∧
     (runOutbound constAgentEnv constLlm 0 terminalRecallDb samplePatient).eff.calls = [] ∧
     (runOutbound constAgentEnv constLlm 0 terminalRecallDb samplePatient).db.interactions =
       terminalRecallDb.interactions ∧
     (runOutbound constAgentEnv constLlm 0 terminalRecallDb samplePatient).db.campaign.cStatus =
       terminalRecallDb.campaign.cStatus ∧
     (runOutbound constAgentEnv constLlm 0 terminalRecallDb samplePatient).db.campaign.campaign_type =
       terminalRecallDb.campaign.campaign_type ∧
     (runOutbound constAgentEnv constLlm 0 terminalRecallDb samplePatient).db.campaign.follow_up_details.attempts_made =
       terminalRecallDb.campaign.follow_up_details.attempts_made + 1 ∧
     (runOutbound constAgentEnv constLlm 0 terminalRecallDb samplePatient).db.campaign.engagement_summary =
       some (constLlm.summarizeFormatted (outboundChatItems terminalRecallDb)) ∧
     (runOutbound constAgentEnv constLlm 7
        (runOutbound constAgentEnv constLlm 0 terminalRecallDb samplePatient).db
        samplePatient).eff.emails = [] ∧
     (runOutbound constAgentEnv constLlm 7
        (runOutbound constAgentEnv constLlm 0 terminalRecallDb samplePatient).db
        samplePatient).eff.calls = [] ∧
     (runOutbound constAgentEnv constLlm 7
        (runOutbound constAgentEnv constLlm 0 terminalRecallDb samplePatient).db
        samplePatient).db.interactions = terminalRecallDb.interactions) :=
  ⟨⟨by decide, by decide⟩,
    terminal_campaign_messaging_noop constAgentEnv constLlm 0 7 terminalRecallDb samplePatient
      (by decide) (by decide)⟩

/-! ## Availability (C2) -/

theorem foldl_removeOccupied (appts : List ApptSlot) (base : List String) :
    appts.foldl (fun available a => removeOccupied available a.startMin a.durationRaw) base =
      base.filter (fun l => appts.all (fun a => ! slotRemoved a.startMin a.durationRaw l)) := by
  induction appts generalizing base with
  | nil => simp
  | cons a as ih =>
    rw [List.foldl_cons, ih]
    simp only [removeOccupied, List.filter_filter, List.all_cons]
    refine List.filter_congr ?_
    intro x _
    rw [Bool.and_comm]

/-- C2 counterexample: the canonical grid holds 24 half-hour labels
(09:00 through 20:30), not the 23 the claim states. -/
theorem availability_slot_count_counterexample :
    (get_availability_day []).length = 24 ∧ ¬ (get_availability_day []).length = 23 := by
  decide

/-- C2 (amended): a date with no stored appointments yields exactly the 24
half-hour labels 09:00..20:30; each stored appointment removes exactly the slots
whose start minute lies in `[start, start + duration)` with the duration
defaulting to 45 when absent or invalid; removing is the claimed interval test. -/
theorem availability_grid_and_removal :
    get_availability_day [] =
      ["09:00", "09:30", "10:00", "10:30", "11:00", "11:30", "12:00", "12:30",
       "13:00", "13:30", "14:00", "14:30", "15:00", "15:30", "16:00", "16:30",
       "17:00", "17:30", "18:00", "18:30", "19:00", "19:30", "20:00", "20:30"] ∧
    (get_availability_day []).length = 24 ∧
    (∀ appts : List ApptSlot, get_availability_day appts =
      generateBaseSlots.filter
        (fun l => appts.all (fun a => ! slotRemoved a.startMin a.durationRaw l))) ∧
    (∀ startMin : Int, ∀ durationRaw : Option Int, ∀ label : String,
      slotRemoved startMin durationRaw label = true ↔
        ∃ m : Nat, labelToMinutes label = some m ∧
          startMin ≤ (m : Int) ∧ (m : Int) < startMin + effectiveDuration durationRaw) ∧
    effectiveDuration none = 45 ∧
    ("10:00" ∉ get_availability_day [{ startMin := 600, durationRaw := some 30 }] ∧
      "10:30" ∈ get_availability_day [{ startMin := 600, durationRaw := some 30 }] ∧
      (get_availability_day [{ startMin := 600, durationRaw := some 30 }]).length = 23) ∧
    ("10:00" ∉ get_availability_day [{ startMin := 600, durationRaw := some 45 }] ∧
      "10:30" ∉ get_availability_day [{ startMin := 600, durationRaw := some 45 }] ∧
      (get_availability_day [{ startMin := 600, durationRaw := some 45 }]).length = 22) := by
  refine ⟨by decide, by decide, fun appts => foldl_removeOccupied appts generateBaseSlots,
    ?_, rfl, by decide, by decide⟩
  intro startMin durationRaw label
  unfold slotRemoved
  cases h : labelToMinutes label <;> simp [h]

/-! ## Admin appointment deletion (C9) -/

theorem deleteOneAppt_length (appts : List StoredAppt) (q : IdFilter) :
    (deleteOneAppt appts q).length ≤ appts.length ∧
      appts.length ≤ (deleteOneAppt appts q).length + 1 := by
  induction appts with
  | nil => simp [deleteOneAppt]
  | cons d rest ih =>
    unfold deleteOneAppt
    obtain ⟨ih1, ih2⟩ := ih
    split
    · constructor <;> simp
    · simp only [List.length_cons]
      omega

/-- C9: for every id string — matching or not, a valid object id or not — the
admin deletion endpoint removes at most one stored appointment and always
answers with the fixed success message, never a not-found error. -/
theorem delete_appointment_total_success (appts : List StoredAppt) (appointment_id : String) :
    (delete_appointment appts appointment_id).1 = "Appointment deleted." ∧
    (delete_appointment appts appointment_id).2.length ≤ appts.length ∧
    appts.length ≤ (delete_appointment appts appointment_id).2.length + 1 := by
  obtain ⟨h1, h2⟩ := deleteOneAppt_length appts (appointmentIdFilter appointment_id)
  exact ⟨rfl, h1, h2⟩

/-! ## Gmail Pub/Sub replay (C6) -/

theorem push_cons (agentCost : GMsg → Nat) (ea : String) (ro : Bool) (x : GMsg)
    (xs : List GMsg) (db : GmailDb) :
    process_pubsub_push agentCost ea ro (x :: xs) db =
      process_pubsub_push agentCost ea ro xs (processGmailMessage agentCost ea ro db x) := rfl

theorem processGmailMessage_noop (agentCost : GMsg → Nat) (ea : String) (ro : Bool)
    (db : GmailDb) (m : GMsg) (h : gmailHandled ea ro db m) :
    processGmailMessage agentCost ea ro db m = db := by
  unfold processGmailMessage has_processed_message
  by_cases hp : (ea, m.msgId) ∈ db.ledger
  · rw [if_pos (decide_eq_true hp)]
  · rcases h with h | h
    · exact absurd h hp
    · rw [if_neg (by simpa using hp), if_pos h]

theorem processGmailMessage_ledger_mono (agentCost : GMsg → Nat) (ea : String) (ro : Bool)
    (db : GmailDb) (m : GMsg) :
    db.ledger ⊆ (processGmailMessage agentCost ea ro db m).ledger := by
  unfold processGmailMessage
  split
  · exact fun x hx => hx
  · split
    · exact fun x hx => hx
    · exact fun x hx => List.mem_cons_of_mem _ hx

theorem processGmailMessage_handled_after (agentCost : GMsg → Nat) (ea : String) (ro : Bool)
    (db : GmailDb) (m : GMsg) :
    gmailHandled ea ro (processGmailMessage agentCost ea ro db m) m := by
  unfold processGmailMessage has_processed_message
  split
  · next hp => exact Or.inl (of_decide_eq_true hp)
  · split
    · next hf => exact Or.inr hf
    · exact Or.inl (List.mem_cons_self _ _)

theorem gmailHandled_mono (ea : String) (ro : Bool) (db db' : GmailDb) (m : GMsg)
    (h : gmailHandled ea ro db m) (hsub : db.ledger ⊆ db'.ledger) :
    gmailHandled ea ro db' m := by
  rcases h with h | h
  · exact Or.inl (hsub h)
  · exact Or.inr h

theorem push_ledger_mono (agentCost : GMsg → Nat) (ea : String) (ro : Bool)
    (msgs : List GMsg) (db : GmailDb) :
    db.ledger ⊆ (process_pubsub_push agentCost ea ro msgs db).ledger := by
  induction msgs generalizing db with
  | nil => exact fun x hx => hx
  | cons x xs ih =>
    rw [push_cons]
    exact fun y hy => ih _ (processGmailMessage_ledger_mono agentCost ea ro db x hy)

theorem push_all_handled (agentCost : GMsg → Nat) (ea : String) (ro : Bool)
    (msgs : List GMsg) (db : GmailDb) :
    ∀ m ∈ msgs, gmailHandled ea ro (process_pubsub_push agentCost ea ro msgs db) m := by
  induction msgs generalizing db with
  | nil => intro m hm; cases hm
  | cons x xs ih =>
    intro m hm
    rcases List.mem_cons.mp hm with rfl | hm'
    · rw [push_cons]
      exact gmailHandled_mono ea ro _ _ m
        (processGmailMessage_handled_after agentCost ea ro db m)
        (push_ledger_mono agentCost ea ro xs _)
    · rw [push_cons]
      exact ih _ m hm'

theorem push_noop_of_handled (agentCost : GMsg → Nat) (ea : String) (ro : Bool)
    (msgs : List GMsg) (db : GmailDb)
    (h : ∀ m ∈ msgs, gmailHandled ea ro db m) :
    process_pubsub_push agentCost ea ro msgs db = db := by
  induction msgs with
  | nil => rfl
  | cons x xs ih =>
    rw [push_cons, processGmailMessage_noop agentCost ea ro db x (h x (List.mem_cons_self _ _))]
    exact ih (fun m hm => h m (List.mem_cons_of_mem _ hm))

/-- C6: replaying the same push payload (same mailbox, same underlying messages)
over the state left by its first processing changes nothing: zero additional
reply-agent invocations and zero additional Interaction documents, because every
message id is checked against the processed-message ledger before the reply
agent runs and recorded in that ledger after handling. -/
theorem pubsub_replay_idempotent (agentCost : GMsg → Nat) (email_address : String)
    (repliesOnly : Bool) (msgs : List GMsg) (db : GmailDb) :
    process_pubsub_push agentCost email_address repliesOnly msgs
        (process_pubsub_push agentCost email_address repliesOnly msgs db) =
      process_pubsub_push agentCost email_address repliesOnly msgs db ∧
    (process_pubsub_push agentCost email_address repliesOnly msgs
        (process_pubsub_push agentCost email_address repliesOnly msgs db)).agentRuns =
      (process_pubsub_push agentCost email_address repliesOnly msgs db).agentRuns ∧
    (process_pubsub_push agentCost email_address repliesOnly msgs
        (process_pubsub_push agentCost email_address repliesOnly msgs db)).interactionsAdded =
      (process_pubsub_push agentCost email_address repliesOnly msgs db).interactionsAdded := by
  have h := push_noop_of_handled agentCost email_address repliesOnly msgs
    (process_pubsub_push agentCost email_address repliesOnly msgs db)
    (push_all_handled agentCost email_address repliesOnly msgs db)
  exact ⟨h, by rw [h], by rw [h]⟩

/-! ## Keyword fallback classifiers (C7, C8) -/

/-- C7: with no LLM configured, the keyword fallback classifies the four probe
texts as booking_request, service_denial, question and irrelevant_confused
respectively, and the fallback sentiment is always neutral. -/
theorem fallback_intent_classification :
    analyze_incoming_fallback "I would like to book an appointment for next week" =
      ("booking_request", "neutral") ∧
    analyze_incoming_fallback "Please stop contacting me" = ("service_denial", "neutral") ∧
    analyze_incoming_fallback "What are your hours?" = ("question", "neutral") ∧
    analyze_incoming_fallback "asdkj 123" = ("irrelevant_confused", "neutral") ∧
    (∀ reply_body : String, (analyze_incoming_fallback reply_body).2 = "neutral") := by
  refine ⟨by decide, by decide, by decide, by decide, fun _ => rfl⟩

/-- C8 counterexample: a whitespace-only `kb_answer` is neither empty nor the
`NO_ANSWER` sentinel, yet the router sends it to the handoff branch — the code
strips whitespace before comparing, so the claim as stated fails at `" "`. -/
theorem answer_router_counterexample :
    answer_checker (some " ") = "update_campaign_for_handoff" ∧
    ¬ ((" " : String) = "" ∨ (" " : String) = "NO_ANSWER") := by
  decide

/-- C8 (amended): the keyless knowledge-base fallback answers every implant
question with the fixed snippet (which is not `NO_ANSWER`) and everything else —
e.g. "do you sell cars?" — with exactly `NO_ANSWER`; the answer router sends a
state whose kb_answer is empty or `NO_ANSWER` after stripping whitespace to the
handoff branch and every other kb_answer to `generate_answer_email`. -/
theorem kb_fallback_and_answer_router :
    (∀ q : String,
      (["implant", "implante"].any (fun k => pyContains (pyLower (pyStrip q)) k)) = true →
        query_knowledge_base_fallback q = implantSnippet) ∧
    implantSnippet ≠ "NO_ANSWER" ∧
    query_knowledge_base_fallback "do you sell cars?" = "NO_ANSWER" ∧
    (∀ a : Option String,
      answer_checker a = "update_campaign_for_handoff" ↔
        (pyStrip (a.getD "") = "" ∨ pyStrip (a.getD "") = "NO_ANSWER")) ∧
    (∀ a : Option String, answer_checker a = "generate_answer_email" ∨
      answer_checker a = "update_campaign_for_handoff") ∧
    answer_checker (some (query_knowledge_base_fallback "Do you offer dental implants?")) =
      "generate_answer_email" ∧
    answer_checker (some (query_knowledge_base_fallback "do you sell cars?")) =
      "update_campaign_for_handoff" := by
  refine ⟨?_, by decide, by decide, ?_, ?_, by decide, by decide⟩
  · intro q h
    unfold query_knowledge_base_fallback
    by_cases hq : pyStrip q = ""
    · rw [hq] at h
      exact absurd h (by decide)
    · rw [if_neg hq]
      dsimp only
      rw [if_pos h]
  · intro a
    unfold answer_checker
    dsimp only
    by_cases h : pyStrip (a.getD "") ≠ "" ∧ pyStrip (a.getD "") ≠ "NO_ANSWER"
    · rw [if_pos h]
      constructor
      · intro hc
        exact absurd hc (by decide)
      · intro hc
        rcases hc with hc | hc
        · exact absurd hc h.1
        · exact absurd hc h.2
    · rw [if_neg h]
      constructor
      · intro _
        rcases Decidable.not_and_iff_or_not.mp h with hc | hc
        · exact Or.inl (Decidable.not_not.mp hc)
        · exact Or.inr (Decidable.not_not.mp hc)
      · intro _
        rfl
  · intro a
    unfold answer_checker
    dsimp only
    split
    · exact Or.inl rfl
    · exact Or.inr rfl

/-- C8 witness: the implant-keyword hypothesis discharged at a concrete question. -/
theorem kb_fallback_and_answer_router_witness :
    ((["implant", "implante"].any
        (fun k => pyContains (pyLower (pyStrip "Do you offer dental implants?")) k)) = true) ∧
    query_knowledge_base_fallback "Do you offer dental implants?" = implantSnippet :=
  ⟨by decide,
    (kb_fallback_and_answer_router).1 "Do you offer dental implants?" (by decide)⟩

/-! ## Inbound reply workflow without a resolved campaign (C10) -/

theorem record_incoming_id_none (now : Int) (r : RRun) (h : r.st.campaign._id = none) :
    record_incoming_interaction_node now r = r := by
  unfold record_incoming_interaction_node
  split
  · rfl
  · rw [h]

theorem record_outgoing_id_none (now : Int) (r : RRun) (h : r.st.campaign._id = none) :
    record_outgoing_interaction_node now r = r := by
  unfold record_outgoing_interaction_node
  split
  · rfl
  · rw [h]

theorem update_declined_id_none (now : Int) (r : RRun) (h : r.st.campaign._id = none) :
    update_campaign_to_declined_node now r = r := by
  unfold update_campaign_to_declined_node
  split
  · rfl
  · rw [h]

theorem update_handoff_id_none (now : Int) (r : RRun) (h : r.st.campaign._id = none) :
    update_campaign_for_handoff_node now r = r := by
  unfold update_campaign_for_handoff_node
  split
  · rfl
  · rw [h]

theorem update_status_id_none (now : Int) (r : RRun) (h : r.st.campaign._id = none) :
    update_campaign_status_node now r = r := by
  unfold update_campaign_status_node
  split
  · rfl
  · rw [h]


theorem reply_ai_summary_id_none (env : ReplyEnv) (o : ReplyOracle) (now : Int) (r : RRun)
    (h : r.st.campaign._id = none) :
    reply_ai_summary_node env o now r = r := by
  unfold reply_ai_summary_node
  split
  · rfl
  · rw [h]

theorem analyze_incoming_preserves (env : ReplyEnv) (o : ReplyOracle) (r : RRun) :
    (analyze_incoming_node env o r).db = r.db ∧
    (analyze_incoming_node env o r).st.campaign = r.st.campaign := by
  refine ⟨?_, ?_⟩ <;>
  · unfold analyze_incoming_node
    dsimp only
    repeat' split
    all_goals rfl

theorem generate_booking_preserves (env : ReplyEnv) (r : RRun) :
    (generate_booking_email_node env r).db = r.db ∧
    (generate_booking_email_node env r).st.campaign = r.st.campaign := by
  refine ⟨?_, ?_⟩ <;>
  · unfold generate_booking_email_node
    dsimp only
    repeat' split
    all_goals rfl

theorem generate_disambiguation_preserves (r : RRun) :
    (generate_disambiguation_email_node r).db = r.db ∧
    (generate_disambiguation_email_node r).st.campaign = r.st.campaign := by
  refine ⟨?_, ?_⟩ <;>
  · unfold generate_disambiguation_email_node
    dsimp only
    repeat' split
    all_goals rfl

theorem generate_declined_preserves (r : RRun) :
    (generate_declined_email_node r).db = r.db ∧
    (generate_declined_email_node r).st.campaign = r.st.campaign := by
  refine ⟨?_, ?_⟩ <;>
  · unfold generate_declined_email_node
    dsimp only
    repeat' split
    all_goals rfl

theorem generate_answer_preserves (r : RRun) :
    (generate_answer_email_node r).db = r.db ∧
    (generate_answer_email_node r).st.campaign = r.st.campaign := by
  refine ⟨?_, ?_⟩ <;>
  · unfold generate_answer_email_node
    dsimp only
    repeat' split
    all_goals rfl

theorem generate_handoff_preserves (r : RRun) :
    (generate_handoff_email_node r).db = r.db ∧
    (generate_handoff_email_node r).st.campaign = r.st.campaign := by
  refine ⟨?_, ?_⟩ <;>
  · unfold generate_handoff_email_node
    dsimp only
    repeat' split
    all_goals rfl

theorem query_kb_preserves (env : ReplyEnv) (o : ReplyOracle) (r : RRun) :
    (query_knowledge_base_node env o r).db = r.db ∧
    (query_knowledge_base_node env o r).st.campaign = r.st.campaign := by
  refine ⟨?_, ?_⟩ <;>
  · unfold query_knowledge_base_node
    dsimp only
    repeat' split
    all_goals rfl

theorem send_reply_preserves (o : ReplyOracle) (r : RRun) :
    (send_reply_email_node o r).db = r.db ∧
    (send_reply_email_node o r).st.campaign = r.st.campaign := by
  refine ⟨?_, ?_⟩ <;>
  · unfold send_reply_email_node
    dsimp only
    repeat' split
    all_goals rfl

theorem analyze_outgoing_preserves (env : ReplyEnv) (o : ReplyOracle) (r : RRun) :
    (analyze_outgoing_node env o r).db = r.db ∧
    (analyze_outgoing_node env o r).st.campaign = r.st.campaign := by
  refine ⟨?_, ?_⟩ <;>
  · unfold analyze_outgoing_node
    dsimp only
    repeat' split
    all_goals rfl

theorem after_send_frozen (env : ReplyEnv) (o : ReplyOracle) (now : Int) (r : RRun)
    (h : r.st.campaign._id = none) :
    (after_send_chain env o now r).db = r.db ∧
    (after_send_chain env o now r).st.campaign = r.st.campaign := by
  unfold after_send_chain
  dsimp only
  obtain ⟨d1, c1⟩ := analyze_outgoing_preserves env o r
  have h1 : (analyze_outgoing_node env o r).st.campaign._id = none := by rw [c1]; exact h
  rw [record_outgoing_id_none now _ h1]
  split
  · rw [update_status_id_none now _ h1]
    exact ⟨d1, c1⟩
  · exact ⟨d1, c1⟩

theorem send_chain_frozen (env : ReplyEnv) (o : ReplyOracle) (now : Int) (r : RRun)
    (h : r.st.campaign._id = none) :
    (after_send_chain env o now (send_reply_email_node o r)).db = r.db ∧
    (after_send_chain env o now (send_reply_email_node o r)).st.campaign = r.st.campaign := by
  obtain ⟨ds, cs⟩ := send_reply_preserves o r
  have hs : (send_reply_email_node o r).st.campaign._id = none := by rw [cs]; exact h
  obtain ⟨da, ca⟩ := after_send_frozen env o now _ hs
  exact ⟨by rw [da, ds], by rw [ca, cs]⟩

theorem run_reply_db_frozen (env : ReplyEnv) (o : ReplyOracle) (now : Int) (r : RRun)
    (h : r.st.campaign._id = none) :
    (run_reply_post_load env o now r).db = r.db := by
  unfold run_reply_post_load
  dsimp only
  obtain ⟨d1, c1⟩ := analyze_incoming_preserves env o r
  have h1 : (analyze_incoming_node env o r).st.campaign._id = none := by rw [c1]; exact h
  rw [record_incoming_id_none now _ h1]
  split
  · -- booking branch
    obtain ⟨dg, cg⟩ := generate_booking_preserves env (analyze_incoming_node env o r)
    have hg : (generate_booking_email_node env (analyze_incoming_node env o r)).st.campaign._id =
        none := by rw [cg]; exact h1
    obtain ⟨dc, cc⟩ := send_chain_frozen env o now _ hg
    have hc : (after_send_chain env o now (send_reply_email_node o
        (generate_booking_email_node env (analyze_incoming_node env o r)))).st.campaign._id =
        none := by rw [cc, cg]; exact h1
    rw [reply_ai_summary_id_none env o now _ hc, dc, dg, d1]
  · split
    · -- declined branch
      rw [update_declined_id_none now _ h1]
      obtain ⟨dg, cg⟩ := generate_declined_preserves (analyze_incoming_node env o r)
      have hg : (generate_declined_email_node (analyze_incoming_node env o r)).st.campaign._id =
          none := by rw [cg]; exact h1
      obtain ⟨dc, cc⟩ := send_chain_frozen env o now _ hg
      have hc : (after_send_chain env o now (send_reply_email_node o
          (generate_declined_email_node (analyze_incoming_node env o r)))).st.campaign._id =
          none := by rw [cc, cg]; exact h1
      rw [reply_ai_summary_id_none env o now _ hc, dc, dg, d1]
    · split
      · -- disambiguation branch
        obtain ⟨dg, cg⟩ := generate_disambiguation_preserves (analyze_incoming_node env o r)
        have hg : (generate_disambiguation_email_node
            (analyze_incoming_node env o r)).st.campaign._id = none := by rw [cg]; exact h1
        obtain ⟨dc, cc⟩ := send_chain_frozen env o now _ hg
        have hc : (after_send_chain env o now (send_reply_email_node o
            (generate_disambiguation_email_node (analyze_incoming_node env o r)))).st.campaign._id =
            none := by rw [cc, cg]; exact h1
        rw [reply_ai_summary_id_none env o now _ hc, dc, dg, d1]
      · split
        · -- knowledge-base branch
          obtain ⟨dq, cq⟩ := query_kb_preserves env o (analyze_incoming_node env o r)
          have hq : (query_knowledge_base_node env o
              (analyze_incoming_node env o r)).st.campaign._id = none := by rw [cq]; exact h1
          split
          · obtain ⟨dg, cg⟩ := generate_answer_preserves
              (query_knowledge_base_node env o (analyze_incoming_node env o r))
            have hg : (generate_answer_email_node (query_knowledge_base_node env o
                (analyze_incoming_node env o r))).st.campaign._id = none := by rw [cg]; exact hq
            obtain ⟨dc, cc⟩ := send_chain_frozen env o now _ hg
            have hc : (after_send_chain env o now (send_reply_email_node o
                (generate_answer_email_node (query_knowledge_base_node env o
                  (analyze_incoming_node env o r))))).st.campaign._id = none := by
              rw [cc, cg]; exact hq
            rw [reply_ai_summary_id_none env o now _ hc, dc, dg, dq, d1]
          · rw [update_handoff_id_none now _ hq]
            obtain ⟨dg, cg⟩ := generate_handoff_preserves
              (query_knowledge_base_node env o (analyze_incoming_node env o r))
            have hg : (generate_handoff_email_node (query_knowledge_base_node env o
                (analyze_incoming_node env o r))).st.campaign._id = none := by rw [cg]; exact hq
            obtain ⟨dc, cc⟩ := send_chain_frozen env o now _ hg
            have hc : (after_send_chain env o now (send_reply_email_node o
                (generate_handoff_email_node (query_knowledge_base_node env o
                  (analyze_incoming_node env o r))))).st.campaign._id = none := by
              rw [cc, cg]; exact hq
            rw [reply_ai_summary_id_none env o now _ hc, dc, dg, dq, d1]
        · -- direct summary branch
          rw [reply_ai_summary_id_none env o now _ h1, d1]

/-- C10: when no campaign was resolved for the sender (the workflow state's
campaign dict has no `_id`), a full invocation of the reply workflow performs no
database write, and each guarded write node — incoming/outgoing interaction
recording, the declined/handoff/form-sent status updates, and the
engagement-summary update — is individually a no-op. -/
theorem reply_no_campaign_no_db_writes (env : ReplyEnv) (o : ReplyOracle) (now : Int)
    (st : RState) (db : ReplyDb) (sent : List RSentEmail) (ab : Bool)
    (h : st.campaign._id = none) :
    (run_reply_post_load env o now ⟨st, db, sent, ab⟩).db = db ∧
    record_incoming_interaction_node now ⟨st, db, sent, ab⟩ = ⟨st, db, sent, ab⟩ ∧
    record_outgoing_interaction_node now ⟨st, db, sent, ab⟩ = ⟨st, db, sent, ab⟩ ∧
    update_campaign_to_declined_node now ⟨st, db, sent, ab⟩ = ⟨st, db, sent, ab⟩ ∧
    update_campaign_for_handoff_node now ⟨st, db, sent, ab⟩ = ⟨st, db, sent, ab⟩ ∧
    update_campaign_status_node now ⟨st, db, sent, ab⟩ = ⟨st, db, sent, ab⟩ ∧
    reply_ai_summary_node env o now ⟨st, db, sent, ab⟩ = ⟨st, db, sent, ab⟩ :=
  ⟨run_reply_db_frozen env o now ⟨st, db, sent, ab⟩ h,
    record_incoming_id_none now _ h, record_outgoing_id_none now _ h,
    update_declined_id_none now _ h, update_handoff_id_none now _ h,
    update_status_id_none now _ h, reply_ai_summary_id_none env o now _ h⟩

/-- C10 witness: the no-write property evaluated on a concrete invocation whose
sender resolves to no campaign. -/
theorem reply_no_campaign_no_db_writes_witness :
    noCampaignState.campaign._id = none ∧
    ((run_reply_post_load { hasApiKey := false } constReplyOracle 9
        ⟨noCampaignState, sampleReplyDb, [], false⟩).db = sampleReplyDb ∧
      record_incoming_interaction_node 9 ⟨noCampaignState, sampleReplyDb, [], false⟩ =
        ⟨noCampaignState, sampleReplyDb, [], false⟩ ∧
      record_outgoing_interaction_node 9 ⟨noCampaignState, sampleReplyDb, [], false⟩ =
        ⟨noCampaignState, sampleReplyDb, [], false⟩ ∧
      update_campaign_to_declined_node 9 ⟨noCampaignState, sampleReplyDb, [], false⟩ =
        ⟨noCampaignState, sampleReplyDb, [], false⟩ ∧
      update_campaign_for_handoff_node 9 ⟨noCampaignState, sampleReplyDb, [], false⟩ =
        ⟨noCampaignState, sampleReplyDb, [], false⟩ ∧
      update_campaign_status_node 9 ⟨noCampaignState, sampleReplyDb, [], false⟩ =
        ⟨noCampaignState, sampleReplyDb, [], false⟩ ∧
      reply_ai_summary_node { hasApiKey := false } constReplyOracle 9
          ⟨noCampaignState, sampleReplyDb, [], false⟩ =
        ⟨noCampaignState, sampleReplyDb, [], false⟩) :=
  ⟨rfl, reply_no_campaign_no_db_writes { hasApiKey := false } constReplyOracle 9
    noCampaignState sampleReplyDb [] false rfl⟩

end Mundos
